import Mathlib

/-!
Verification of the `llm_intents` Google Routes integration
(`custom_components/llm_intents/GoogleRoutes.py`).

`GetTransitTimesTool.async_call` is embedded as a pure function over an
explicit environment describing the behaviour of its collaborators: the
SQLite-backed response cache, the HTTP client session, and the remote
Routes API.  Python exceptions raised by collaborators are modelled as
explicit outcome constructors; the `try`/`except Exception` block of the
source corresponds to the error branches of the embedding.  The
`SQLiteCache` implementation itself (`cache.py`) is not part of the
sources; where a property concerns it, it is modelled from the spec and
marked as such.
-/

/-- Result mapping returned by `async_call`: either the mapping
`(error : msg)`, the mapping `(result : msg)`, or the five-key success
mapping built by a successful transform.  Every constructor denotes a
non-empty Python dict, so Python truthiness of such a value is `True`;
hence the source test `if cached_response:` coincides with presence. -/
inductive ToolResult where
  | errorRes (msg : String)
  | resultRes (msg : String)
  | successRes (destination travel_mode duration distance instruction : String)
  deriving DecidableEq, Repr

/-- JSON-like values, covering the shapes that occur in the request body
sent to the Routes API (numbers, strings, booleans, string-keyed
objects). -/
inductive Json where
  | jNum (q : ℚ)
  | jStr (s : String)
  | jBool (b : Bool)
  | jObj (fields : List (String × Json))

/-- Modelled from the spec: the canonicalization step of `SQLiteCache`
("the serialization step must canonicalize key ordering before
hashing/storing", spec 9; `cache.py` is absent from the sources).  Object
fields are serialized and then sorted, so insertion order cannot
influence the fingerprint. -/
def canonKey (fs : List String) : List String :=
  List.insertionSort (fun a b => a ≤ b) fs

mutual

/-- Modelled from the spec: canonical serialization of a payload used by
the fingerprint ("a deterministic fingerprint of (tool identity, request
payload)", spec 1; `cache.py` is absent from the sources). -/
def Json.canonSer : Json → String
  | .jNum q => "num:" ++ toString q
  | .jStr s => "str:" ++ s
  | .jBool b => "bool:" ++ toString b
  | .jObj fs => "obj(" ++ String.intercalate ";" (canonKey (serFields fs)) ++ ")"

/-- Serialize each field of a JSON object to a `key=value` string. -/
def serFields : List (String × Json) → List String
  | [] => []
  | (k, v) :: rest => (k ++ "=" ++ Json.canonSer v) :: serFields rest

end

/-- Modelled from the spec: the fingerprint of a (namespace, payload)
pair ("keyed by a fingerprint derived deterministically from a namespace
string and a canonical serialization of the request payload", spec 3). -/
def fingerprint (ns : String) (payload : Json) : String :=
  ns ++ "#" ++ payload.canonSer

/-- Modelled from the spec: the durable key/value store behind
`SQLiteCache`, as a map from fingerprints to stored results (spec 2:
"durable key/value store mapping a (namespace, request-payload) pair to
a previously computed result"). -/
def CacheStore : Type := String → Option ToolResult

/-- Modelled from the spec: `SQLiteCache.get` ("deterministically
hashes/serializes (namespace, payload) into a fingerprint; looks up
stored value; returns it unchanged if present", spec 4.1). -/
def SQLiteCache.get (store : CacheStore) (ns : String) (payload : Json) :
    Option ToolResult :=
  store (fingerprint ns payload)

/-- Modelled from the spec: `SQLiteCache.set` ("computes the same
fingerprint and stores `result`, replacing any prior value for that
fingerprint", spec 4.1). -/
def SQLiteCache.set (store : CacheStore) (ns : String) (payload : Json)
    (v : ToolResult) : CacheStore :=
  fun k => if k = fingerprint ns payload then some v else store k

theorem canonKey_perm_eq {l₁ l₂ : List String} (h : l₁.Perm l₂) :
    canonKey l₁ = canonKey l₂ :=
  List.eq_of_perm_of_sorted
    (((List.perm_insertionSort _ l₁).trans h).trans
      (List.perm_insertionSort _ l₂).symm)
    (List.sorted_insertionSort _ l₁)
    (List.sorted_insertionSort _ l₂)

theorem serFields_eq_map (fs : List (String × Json)) :
    serFields fs = fs.map (fun p => p.1 ++ "=" ++ p.2.canonSer) := by
  induction fs with
  | nil => rfl
  | cons p rest ih => cases p; simp [serFields, ih]

theorem canonSer_obj_perm {fs₁ fs₂ : List (String × Json)}
    (h : fs₁.Perm fs₂) : Json.canonSer (.jObj fs₁) = Json.canonSer (.jObj fs₂) := by
  simp only [Json.canonSer, serFields_eq_map]
  rw [canonKey_perm_eq (h.map _)]

/-- A configuration value as read from the Home Assistant config entry:
either a number (Python `int`/`float`; both are modelled as the same
rational, so the int `0` and the float `0.0` are both `cNum 0`) or a
string. -/
inductive CVal where
  | cNum (q : ℚ)
  | cStr (s : String)
  deriving DecidableEq, Repr

/-- The configuration bundle read at the start of `async_call`:
`config_data.get(...)` for the API key, origin latitude/longitude and
travel mode.  `none` means the key is absent (Python `None`). -/
structure Config where
  api_key : Option String
  latitude : Option CVal
  longitude : Option CVal
  travel_mode : Option String
  deriving DecidableEq, Repr

/-- Python truthiness of an optional string (source: `if not api_key:`):
`None` and the empty string are falsy. -/
def pyTruthyStr : Option String → Bool
  | none => false
  | some s => if s = "" then false else true

/-- Python truthiness of an optional config value (source:
`if not latitude or not longitude:`): `None`, the number `0` (int `0` or
float `0.0`) and the empty string are falsy. -/
def pyTruthyCVal : Option CVal → Bool
  | none => false
  | some (.cNum q) => if q = 0 then false else true
  | some (.cStr s) => if s = "" then false else true

/-- Numeric value of a list of decimal digit characters. -/
def digitsVal (cs : List Char) : Nat :=
  cs.foldl (fun a c => 10 * a + (c.toNat - 48)) 0

/-- Parse an unsigned decimal literal (digits with at most one decimal
point, at least one digit) into a rational. -/
def parseUnsignedQ (cs : List Char) : Option ℚ :=
  let intPart := cs.takeWhile Char.isDigit
  let rest := cs.dropWhile Char.isDigit
  match rest with
  | [] => if intPart = [] then none else some ((digitsVal intPart : ℚ))
  | '.' :: frac =>
    if frac.all Char.isDigit ∧ ¬(intPart = [] ∧ frac = []) then
      some ((digitsVal intPart : ℚ) + (digitsVal frac : ℚ) / ((10 : ℚ) ^ frac.length))
    else none
  | _ => none

/-- Strip leading and trailing whitespace characters (the `str.strip()`
step performed by Python `float` on string input). -/
def stripWS (s : String) : List Char :=
  ((s.data.dropWhile Char.isWhitespace).reverse.dropWhile Char.isWhitespace).reverse

/-- Python `float(s)` on a string, as an exact rational: surrounding
whitespace is stripped, an optional sign is allowed, then a decimal
literal.  `none` models `float` raising `ValueError`.  (The exotic parts
of the Python float grammar - exponents, `inf`, `nan`, underscores - are
not produced by coordinate configuration and are not modelled.) -/
def parseFloatQ (s : String) : Option ℚ :=
  match stripWS s with
  | '-' :: rest => (parseUnsignedQ rest).map (fun q => -q)
  | '+' :: rest => parseUnsignedQ rest
  | cs => parseUnsignedQ cs

/-- Source: `float(latitude)` / `float(longitude)`.  On a numeric config
value `float` is the identity; on a string it parses or raises. -/
def pyFloat : CVal → Option ℚ
  | .cNum q => some q
  | .cStr s => parseFloatQ s

/-- The request body built for the Routes API (source lines 83-98).  The
last four fields are the fixed routing/formatting parameters. -/
structure RequestBody where
  originLat : ℚ
  originLng : ℚ
  destinationAddress : String
  travelMode : String
  routingPreference : String
  computeAlternativeRoutes : Bool
  languageCode : String
  units : String
  deriving DecidableEq, Repr

/-- The request body as a JSON object, mirroring the dict literal of the
source (used for fingerprinting by the cache). -/
def RequestBody.toJson (rb : RequestBody) : Json :=
  .jObj
    [("origin", .jObj [("location", .jObj [("latLng",
        .jObj [("latitude", .jNum rb.originLat),
               ("longitude", .jNum rb.originLng)])])]),
     ("destination", .jObj [("address", .jStr rb.destinationAddress)]),
     ("travelMode", .jStr rb.travelMode),
     ("routingPreference", .jStr rb.routingPreference),
     ("computeAlternativeRoutes", .jBool rb.computeAlternativeRoutes),
     ("languageCode", .jStr rb.languageCode),
     ("units", .jStr rb.units)]

/-- One route object of the JSON response; the field mask restricts the
response to `routes.duration` and `routes.distanceMeters`, and either
field may be absent (`route.get` defaults are applied by the caller). -/
structure RouteData where
  duration : Option String
  distanceMeters : Option Nat
  deriving DecidableEq, Repr

/-- Behaviour of `cache.get` in one invocation: a stored value, a miss
(`None`), or a raised exception with description `msg`. -/
inductive CacheGetOutcome where
  | found (value : ToolResult)
  | missing
  | raises (msg : String)
  deriving DecidableEq, Repr

/-- Behaviour of the remote call in one invocation: an exception raised
by session construction, `session.post` or response decoding (with
description `msg`), or an HTTP response with a status code and the
decoded `routes` list. -/
inductive HttpOutcome where
  | raises (msg : String)
  | response (status : Nat) (routes : List RouteData)
  deriving DecidableEq, Repr

/-- Behaviour of `cache.set` in one invocation: success or a raised
exception with description `msg`. -/
inductive CacheSetOutcome where
  | ok
  | raises (msg : String)
  deriving DecidableEq, Repr

/-- The collaborator behaviours an invocation of `async_call` can
observe. -/
structure Env where
  cacheGet : CacheGetOutcome
  http : HttpOutcome
  cacheSet : CacheSetOutcome
  deriving DecidableEq, Repr

/-- The observable outcome of one invocation: the returned mapping, plus
a trace of whether the remote call was issued and the arguments of the
cache calls that were made (`none` = the call never happened). -/
structure CallTrace where
  result : ToolResult
  networkCalled : Bool
  cacheGetArg : Option (String × RequestBody)
  cacheSetArg : Option (String × RequestBody × ToolResult)
  deriving DecidableEq, Repr

/-- `__name__` of the module, the namespace passed to the cache. -/
def MODULE_NAME : String := "custom_components.llm_intents.GoogleRoutes"

/-- The fixed instructional directive appended to every success result
(source: `GetTransitTimesTool.response_directive`). -/
def response_directive : String :=
  "Use the route information to answer the user\x27s query.\nFocus on the transit time and relevant route details the user is interested in."

/-- Modelled from the spec: `SERVICE_DEFAULTS` fallback for the travel
mode ("configured travel mode (falling back to a documented default if
unset)", spec 4.2; `const.py` is absent from the sources, and no claim
depends on the concrete default value). -/
def SERVICE_DEFAULT_TRAVEL_MODE : String := "DRIVE"

/-- Source: `f"Error getting route: {e!s}"` - the error text produced by
the `except Exception` handler for an exception with description
`msg`. -/
def exc_text (msg : String) : String := "Error getting route: " ++ msg

/-- Description text of the `ValueError` raised by `float()` on an
unparsable string. -/
def float_value_error : String := "could not convert string to float"

/-- Description text of the `ValueError` raised by `int()` on an
unparsable literal `t`. -/
def int_value_error (t : String) : String :=
  "invalid literal for int() with base 10: " ++ t

/-- Source: `.rstrip("s")` - drop every trailing `s` character. -/
def rstrip_s (s : String) : String :=
  String.mk ((s.data.reverse.dropWhile (fun c => c = 's')).reverse)

/-- Source: `int(route.get("duration", "0s").rstrip("s"))` - strip the
trailing unit marker and parse the remaining decimal digits.  `none`
models `int()` raising `ValueError`.  (Response durations have the shape
`"<N>s"` with `N` a nonnegative count of seconds, so the sign and
whitespace forms accepted by Python `int` are not modelled.) -/
def parse_duration (s : String) : Option Nat :=
  let t := rstrip_s s
  if t.data ≠ [] ∧ t.data.all Char.isDigit then some (digitsVal t.data)
  else none

/-- Source lines 135-142: split the duration into hours and minutes and
format, pluralizing each unit independently and omitting the hour
segment when `hours` is zero. -/
def format_duration (secs : Nat) : String :=
  let hours := secs / 3600
  let minutes := secs % 3600 / 60
  if hours > 0 then
    toString hours ++ " hour" ++ (if hours ≠ 1 then "s" else "") ++ " " ++
      toString minutes ++ " minute" ++ (if minutes ≠ 1 then "s" else "")
  else
    toString minutes ++ " minute" ++ (if minutes ≠ 1 then "s" else "")

/-- The number of tenths of a kilometre in `meters` metres, rounding
half to even: the exact-real semantics of rounding `meters / 1000` to
one decimal place. -/
def roundTenths (meters : Nat) : Nat :=
  let q := meters / 100
  let r := meters % 100
  if r < 50 then q else if r > 50 then q + 1
  else if q % 2 = 0 then q else q + 1

/-- Source: `f"{distance_km:.1f} km"` with
`distance_km = distance_meters / 1000` - kilometres with exactly one
decimal place.  Modelled with exact rounding of the rational
`meters / 1000` (ties to even); this agrees with the CPython double
formatting everywhere except where the binary double of `meters / 1000`
falls on the far side of an exact `.05` tie. -/
def format_km (meters : Nat) : String :=
  let t := roundTenths meters
  toString (t / 10) ++ "." ++ toString (t % 10) ++ " km"

/-- Source: `travel_mode.lower().replace("_", " ")`.  Lower-casing is
per character (the travel modes are ASCII), and replacing the
single-character pattern `"_"` by `" "` is exactly a per-character
substitution, so the chain is a single character map. -/
def display_mode (mode : String) : String :=
  String.mk (mode.data.map (fun c =>
    if c.toLower = '_' then Char.ofNat 32 else c.toLower))

/-- The embedding of `GetTransitTimesTool.async_call` (source lines
52-162), for a fixed configuration, tool argument `destination`, and
collaborator behaviour `env`.  The branches follow the source in order:
the two truthiness checks, then the `try` block (float conversion,
request construction, `cache.get`, `session.post`, status dispatch,
transform, `cache.set`), with every raised exception routed to the
`except Exception` handler. -/
def async_call (cfg : Config) (destination : String) (env : Env) : CallTrace :=
  let travel_mode := cfg.travel_mode.getD SERVICE_DEFAULT_TRAVEL_MODE
  if pyTruthyStr cfg.api_key = false then
    { result := .errorRes "Google Routes API key not configured",
      networkCalled := false, cacheGetArg := none, cacheSetArg := none }
  else if pyTruthyCVal cfg.latitude = false ∨ pyTruthyCVal cfg.longitude = false then
    { result := .errorRes "Origin location (latitude/longitude) not configured",
      networkCalled := false, cacheGetArg := none, cacheSetArg := none }
  else
    match pyFloat (cfg.latitude.getD (.cNum 0)), pyFloat (cfg.longitude.getD (.cNum 0)) with
    | none, _ =>
      { result := .errorRes (exc_text float_value_error),
        networkCalled := false, cacheGetArg := none, cacheSetArg := none }
    | some _, none =>
      { result := .errorRes (exc_text float_value_error),
        networkCalled := false, cacheGetArg := none, cacheSetArg := none }
    | some lat, some lng =>
      let request_body : RequestBody :=
        { originLat := lat, originLng := lng,
          destinationAddress := destination, travelMode := travel_mode,
          routingPreference := "TRAFFIC_AWARE",
          computeAlternativeRoutes := false,
          languageCode := "en-US", units := "METRIC" }
      match env.cacheGet with
      | .raises m =>
        { result := .errorRes (exc_text m), networkCalled := false,
          cacheGetArg := some (MODULE_NAME, request_body), cacheSetArg := none }
      | .found v =>
        { result := v, networkCalled := false,
          cacheGetArg := some (MODULE_NAME, request_body), cacheSetArg := none }
      | .missing =>
        match env.http with
        | .raises m =>
          { result := .errorRes (exc_text m), networkCalled := true,
            cacheGetArg := some (MODULE_NAME, request_body), cacheSetArg := none }
        | .response status routes =>
          if status = 200 then
            match routes with
            | [] =>
              { result := .resultRes "No route found to destination",
                networkCalled := true,
                cacheGetArg := some (MODULE_NAME, request_body), cacheSetArg := none }
            | route :: _ =>
              match parse_duration (route.duration.getD "0s") with
              | none =>
                { result := .errorRes (exc_text (int_value_error (rstrip_s (route.duration.getD "0s")))),
                  networkCalled := true,
                  cacheGetArg := some (MODULE_NAME, request_body), cacheSetArg := none }
              | some duration_seconds =>
                let distance_meters := route.distanceMeters.getD 0
                let result : ToolResult :=
                  .successRes destination (display_mode travel_mode)
                    (format_duration duration_seconds)
                    (format_km distance_meters) response_directive
                match env.cacheSet with
                | .raises m =>
                  { result := .errorRes (exc_text m), networkCalled := true,
                    cacheGetArg := some (MODULE_NAME, request_body),
                    cacheSetArg := some (MODULE_NAME, request_body, result) }
                | .ok =>
                  { result := result, networkCalled := true,
                    cacheGetArg := some (MODULE_NAME, request_body),
                    cacheSetArg := some (MODULE_NAME, request_body, result) }
          else
            { result := .errorRes ("Routes API error: " ++ toString status),
              networkCalled := true,
              cacheGetArg := some (MODULE_NAME, request_body), cacheSetArg := none }

/-- The two configuration truthiness checks of the source pass. -/
def checks_pass (cfg : Config) : Prop :=
  pyTruthyStr cfg.api_key = true ∧ pyTruthyCVal cfg.latitude = true ∧
    pyTruthyCVal cfg.longitude = true

/-- Both `float()` conversions of the source succeed. -/
def floats_ok (cfg : Config) : Prop :=
  (pyFloat (cfg.latitude.getD (.cNum 0))).isSome = true ∧
    (pyFloat (cfg.longitude.getD (.cNum 0))).isSome = true

/-- The invocation reaches a successful transform: HTTP status 200, at
least one route candidate, and the duration field parses. -/
def reaches_transform (env : Env) : Prop :=
  ∃ route rest, env.http = .response 200 (route :: rest) ∧
    (parse_duration (route.duration.getD "0s")).isSome = true

/-- Fixed valid configuration used by concrete instantiations. -/
def cfgW : Config :=
  { api_key := some "test_routes_key", latitude := some (.cNum 40),
    longitude := some (.cNum (-74)), travel_mode := some "DRIVE" }

/-- Fixed single-route response payload used by concrete
instantiations. -/
def routeW : RouteData := { duration := some "1200s", distanceMeters := some 5000 }

/-- C5: if the API credential is absent (falsy), `async_call` returns the
credential error mapping and makes no remote call and no cache call;
otherwise, if either origin coordinate is absent (falsy), it returns the
distinct origin-location error mapping, again without any remote or
cache interaction.  Both are returned mappings, not raised exceptions. -/
theorem c5_config_validation (cfg : Config) (destination : String) (env : Env) :
    (pyTruthyStr cfg.api_key = false →
      async_call cfg destination env =
        { result := .errorRes "Google Routes API key not configured",
          networkCalled := false, cacheGetArg := none, cacheSetArg := none }) ∧
    (pyTruthyStr cfg.api_key = true →
      (pyTruthyCVal cfg.latitude = false ∨ pyTruthyCVal cfg.longitude = false) →
      async_call cfg destination env =
        { result := .errorRes "Origin location (latitude/longitude) not configured",
          networkCalled := false, cacheGetArg := none, cacheSetArg := none }) := by
  constructor
  · intro h
    simp [async_call, h]
  · intro h1 h2
    simp [async_call, h1, h2]

theorem c5_witness :
    async_call
      { api_key := none, latitude := some (.cNum 40),
        longitude := some (.cNum (-74)), travel_mode := none } "Times Square"
      { cacheGet := .missing, http := .raises "boom", cacheSet := .ok } =
      { result := .errorRes "Google Routes API key not configured",
        networkCalled := false, cacheGetArg := none, cacheSetArg := none } :=
  (c5_config_validation _ "Times Square" _).1 rfl

/-- C3: when `cache.get` returns a stored result, `async_call` returns
that cached result verbatim and the remote HTTP request is never
issued. -/
theorem c3_cache_hit_short_circuit (cfg : Config) (destination : String) (env : Env)
    (v : ToolResult) (hv : env.cacheGet = .found v) (hc : checks_pass cfg)
    (hf : floats_ok cfg) :
    (async_call cfg destination env).result = v ∧
      (async_call cfg destination env).networkCalled = false := by
  obtain ⟨h1, h2, h3⟩ := hc
  obtain ⟨lat, hlat⟩ := Option.isSome_iff_exists.mp hf.1
  obtain ⟨lng, hlng⟩ := Option.isSome_iff_exists.mp hf.2
  simp [async_call, h1, h2, h3, hlat, hlng, hv]

theorem c3_witness :
    (async_call cfgW "Times Square"
        { cacheGet := .found (.resultRes "cached"), http := .raises "x",
          cacheSet := .ok }).result = .resultRes "cached" :=
  (c3_cache_hit_short_circuit cfgW "Times Square" _ _ rfl ⟨rfl, rfl, rfl⟩ ⟨rfl, rfl⟩).1

/-- C6: the duration transform parses a digit string suffixed by the `s`
unit marker into seconds, converts to hours and minutes, pluralizes each
unit independently with the singular form exactly at 1, and omits the
hour segment entirely when the hour count is zero; in particular 1200
seconds formats as "20 minutes", 7200 as "2 hours 0 minutes" and 0 as
"0 minutes". -/
theorem c6_duration_formatting :
    parse_duration "1200s" = some 1200 ∧
    format_duration 1200 = "20 minutes" ∧
    format_duration 7200 = "2 hours 0 minutes" ∧
    format_duration 0 = "0 minutes" ∧
    (∀ n : Nat, n / 3600 = 0 →
      format_duration n =
        toString (n / 60) ++ " minute" ++ (if n / 60 = 1 then "" else "s")) ∧
    (∀ n : Nat, 0 < n / 3600 →
      format_duration n =
        toString (n / 3600) ++ " hour" ++ (if n / 3600 = 1 then "" else "s") ++ " " ++
          toString (n % 3600 / 60) ++ " minute" ++
          (if n % 3600 / 60 = 1 then "" else "s")) := by
  refine ⟨rfl, rfl, rfl, rfl, ?_, ?_⟩
  · intro n h
    have hlt : n < 3600 := (Nat.div_eq_zero_iff (by norm_num)).mp h
    have hmod : n % 3600 = n := Nat.mod_eq_of_lt hlt
    simp only [format_duration, h, gt_iff_lt, lt_irrefl, if_false, hmod]
    by_cases h1 : n / 60 = 1 <;> simp [h1]
  · intro n h
    simp only [format_duration, gt_iff_lt, h, if_true]
    by_cases h1 : n / 3600 = 1 <;> by_cases h2 : n % 3600 / 60 = 1 <;>
      simp [h1, h2]

theorem c6_witness : format_duration 7200 = "2 hours 0 minutes" :=
  c6_duration_formatting.2.2.1

/-- C8: the distance transform converts meters to kilometres and formats
the value with exactly one decimal digit followed by " km"; 5000 meters
formats as "5.0 km" and 100000 meters as "100.0 km". -/
theorem c8_distance_formatting :
    format_km 5000 = "5.0 km" ∧ format_km 100000 = "100.0 km" ∧
    ∀ m : Nat, ∃ a b : Nat, b < 10 ∧
      format_km m = toString a ++ "." ++ toString b ++ " km" := by
  refine ⟨rfl, rfl, fun m => ⟨roundTenths m / 10, roundTenths m % 10, ?_, rfl⟩⟩
  exact Nat.mod_lt _ (by norm_num)

theorem c8_witness : ∃ a b : Nat, b < 10 ∧
    format_km 2500 = toString a ++ "." ++ toString b ++ " km" :=
  c8_distance_formatting.2.2 2500

/-- C9: a latitude or longitude that is present but falsy under Python
truthiness (the number 0 - covering int 0 and float 0.0 - or the empty
string) is treated as not configured and yields the origin-location
error without attempting the remote call; likewise an empty-string API
credential yields the credential error. -/
theorem c9_falsy_config_rejected (cfg : Config) (destination : String) (env : Env) :
    (cfg.api_key = some "" →
      (async_call cfg destination env).result =
        .errorRes "Google Routes API key not configured") ∧
    (pyTruthyStr cfg.api_key = true →
      (cfg.latitude = some (.cNum 0) ∨ cfg.latitude = some (.cStr "") ∨
       cfg.longitude = some (.cNum 0) ∨ cfg.longitude = some (.cStr "")) →
      (async_call cfg destination env).result =
          .errorRes "Origin location (latitude/longitude) not configured" ∧
        (async_call cfg destination env).networkCalled = false) := by
  constructor
  · intro h
    simp [async_call, h, pyTruthyStr]
  · intro h1 h2
    rcases h2 with h2 | h2 | h2 | h2 <;>
      simp [async_call, h1, h2, pyTruthyCVal]

theorem c9_witness :
    (async_call
      { api_key := some "k", latitude := some (.cNum 0),
        longitude := some (.cNum (-74)), travel_mode := none } "Times Square"
      { cacheGet := .missing, http := .raises "x", cacheSet := .ok }).result =
      .errorRes "Origin location (latitude/longitude) not configured" :=
  ((c9_falsy_config_rejected
      { api_key := some "k", latitude := some (.cNum 0),
        longitude := some (.cNum (-74)), travel_mode := none } "Times Square"
      { cacheGet := .missing, http := .raises "x", cacheSet := .ok }).2
    rfl (Or.inl rfl)).1

/-- C7: on a cache miss, a success status with zero route candidates
yields the distinct "No route found" mapping keyed `result` (not
`error`), and a non-success status yields an error mapping carrying the
numeric status code; neither calls `cache.set`. -/
theorem c7_status_interpretation (cfg : Config) (destination : String) (env : Env)
    (hc : checks_pass cfg) (hf : floats_ok cfg) (hm : env.cacheGet = .missing) :
    (env.http = .response 200 [] →
      (async_call cfg destination env).result = .resultRes "No route found to destination" ∧
        (async_call cfg destination env).cacheSetArg = none) ∧
    (∀ status routes, env.http = .response status routes → status ≠ 200 →
      (async_call cfg destination env).result =
          .errorRes ("Routes API error: " ++ toString status) ∧
        (async_call cfg destination env).cacheSetArg = none) := by
  obtain ⟨h1, h2, h3⟩ := hc
  obtain ⟨lat, hlat⟩ := Option.isSome_iff_exists.mp hf.1
  obtain ⟨lng, hlng⟩ := Option.isSome_iff_exists.mp hf.2
  constructor
  · intro hh
    simp [async_call, h1, h2, h3, hlat, hlng, hm, hh]
  · intro status routes hh hs
    simp [async_call, h1, h2, h3, hlat, hlng, hm, hh, hs]

theorem c7_witness :
    (async_call cfgW "Times Square"
        { cacheGet := .missing, http := .response 500 [], cacheSet := .ok }).result =
      .errorRes "Routes API error: 500" :=
  ((c7_status_interpretation cfgW "Times Square"
      { cacheGet := .missing, http := .response 500 [], cacheSet := .ok }
      ⟨rfl, rfl, rfl⟩ ⟨rfl, rfl⟩ rfl).2 500 [] rfl (by decide)).1

/-- C10: on a success-status response whose first route lacks the
`duration` field (defaulted to "0s") and the `distanceMeters` field
(defaulted to 0), the invocation still returns a success mapping with
duration "0 minutes" and distance "0.0 km" rather than an error. -/
theorem c10_missing_fields_default (cfg : Config) (destination : String) (env : Env)
    (hc : checks_pass cfg) (hf : floats_ok cfg) (hm : env.cacheGet = .missing)
    (rest : List RouteData)
    (hh : env.http = .response 200 ({ duration := none, distanceMeters := none } :: rest))
    (hs : env.cacheSet = .ok) :
    (async_call cfg destination env).result =
      .successRes destination
        (display_mode (cfg.travel_mode.getD SERVICE_DEFAULT_TRAVEL_MODE))
        "0 minutes" "0.0 km" response_directive := by
  obtain ⟨h1, h2, h3⟩ := hc
  obtain ⟨lat, hlat⟩ := Option.isSome_iff_exists.mp hf.1
  obtain ⟨lng, hlng⟩ := Option.isSome_iff_exists.mp hf.2
  have hp : parse_duration "0s" = some 0 := rfl
  have hd : format_duration 0 = "0 minutes" := rfl
  have hk : format_km 0 = "0.0 km" := rfl
  simp [async_call, h1, h2, h3, hlat, hlng, hm, hh, hs, hp, hd, hk]

theorem c10_witness :
    (async_call cfgW "Times Square"
        { cacheGet := .missing,
          http := .response 200 [{ duration := none, distanceMeters := none }],
          cacheSet := .ok }).result =
      .successRes "Times Square" "drive" "0 minutes" "0.0 km" response_directive :=
  c10_missing_fields_default cfgW "Times Square"
    { cacheGet := .missing,
      http := .response 200 [{ duration := none, distanceMeters := none }],
      cacheSet := .ok }
    ⟨rfl, rfl, rfl⟩ ⟨rfl, rfl⟩ rfl [] rfl rfl

/-- C1: every invocation returns a structured mapping (a success
mapping, a `result` mapping or an `error` mapping), never a propagated
exception; and whichever collaborator raises - `cache.get`, the remote
call, or `cache.set` after a successful transform - the exception is
converted into an error mapping carrying the failure description. -/
theorem c1_exception_containment (cfg : Config) (destination : String) (env : Env) :
    ((∃ m, (async_call cfg destination env).result = .errorRes m) ∨
     (∃ m, (async_call cfg destination env).result = .resultRes m) ∨
     (∃ d tm du di ins, (async_call cfg destination env).result = .successRes d tm du di ins)) ∧
    (∀ m, checks_pass cfg → floats_ok cfg → env.cacheGet = .raises m →
      (async_call cfg destination env).result = .errorRes (exc_text m)) ∧
    (∀ m, checks_pass cfg → floats_ok cfg → env.cacheGet = .missing →
      env.http = .raises m →
      (async_call cfg destination env).result = .errorRes (exc_text m)) ∧
    (∀ m, checks_pass cfg → floats_ok cfg → env.cacheGet = .missing →
      reaches_transform env → env.cacheSet = .raises m →
      (async_call cfg destination env).result = .errorRes (exc_text m)) := by
  refine ⟨?_, ?_, ?_, ?_⟩
  · cases hres : (async_call cfg destination env).result with
    | errorRes m => exact Or.inl ⟨m, rfl⟩
    | resultRes m => exact Or.inr (Or.inl ⟨m, rfl⟩)
    | successRes d tm du di ins => exact Or.inr (Or.inr ⟨d, tm, du, di, ins, rfl⟩)
  · intro m hc hf hg
    obtain ⟨h1, h2, h3⟩ := hc
    obtain ⟨lat, hlat⟩ := Option.isSome_iff_exists.mp hf.1
    obtain ⟨lng, hlng⟩ := Option.isSome_iff_exists.mp hf.2
    simp [async_call, h1, h2, h3, hlat, hlng, hg]
  · intro m hc hf hg hh
    obtain ⟨h1, h2, h3⟩ := hc
    obtain ⟨lat, hlat⟩ := Option.isSome_iff_exists.mp hf.1
    obtain ⟨lng, hlng⟩ := Option.isSome_iff_exists.mp hf.2
    simp [async_call, h1, h2, h3, hlat, hlng, hg, hh]
  · intro m hc hf hg hrt hcs
    obtain ⟨h1, h2, h3⟩ := hc
    obtain ⟨lat, hlat⟩ := Option.isSome_iff_exists.mp hf.1
    obtain ⟨lng, hlng⟩ := Option.isSome_iff_exists.mp hf.2
    obtain ⟨route, rrest, hh, hps⟩ := hrt
    obtain ⟨secs, hsec⟩ := Option.isSome_iff_exists.mp hps
    simp [async_call, h1, h2, h3, hlat, hlng, hg, hh, hsec, hcs]

theorem c1_witness :
    (async_call cfgW "Times Square"
        { cacheGet := .raises "boom", http := .raises "x", cacheSet := .ok }).result =
      .errorRes "Error getting route: boom" :=
  (c1_exception_containment cfgW "Times Square"
      { cacheGet := .raises "boom", http := .raises "x", cacheSet := .ok }).2.1
    "boom" ⟨rfl, rfl, rfl⟩ ⟨rfl, rfl⟩ rfl

/-- C4: the fingerprint computed by the cache is invariant under the
field insertion order of the payload object, so a second structurally
equal call hits the entry stored by the first.  (`SQLiteCache` is
modelled from the spec; its implementation is not among the sources.) -/
theorem c4_fingerprint_order_independent (ns : String)
    (fs₁ fs₂ : List (String × Json)) (h : fs₁.Perm fs₂)
    (store : CacheStore) (v : ToolResult) :
    fingerprint ns (.jObj fs₁) = fingerprint ns (.jObj fs₂) ∧
      SQLiteCache.get (SQLiteCache.set store ns (.jObj fs₁) v) ns (.jObj fs₂) =
        some v := by
  have hf : fingerprint ns (.jObj fs₁) = fingerprint ns (.jObj fs₂) := by
    simp [fingerprint, canonSer_obj_perm h]
  refine ⟨hf, ?_⟩
  simp [SQLiteCache.get, SQLiteCache.set, hf]

theorem c4_witness :
    fingerprint MODULE_NAME
        (.jObj [("destination", .jStr "Times Square"), ("travelMode", .jStr "DRIVE")]) =
      fingerprint MODULE_NAME
        (.jObj [("travelMode", .jStr "DRIVE"), ("destination", .jStr "Times Square")]) ∧
      SQLiteCache.get
          (SQLiteCache.set (fun _ => none) MODULE_NAME
            (.jObj [("destination", .jStr "Times Square"), ("travelMode", .jStr "DRIVE")])
            (.resultRes "stored"))
          MODULE_NAME
          (.jObj [("travelMode", .jStr "DRIVE"), ("destination", .jStr "Times Square")]) =
        some (.resultRes "stored") :=
  c4_fingerprint_order_independent MODULE_NAME _ _
    (List.Perm.swap _ _ _) (fun _ => none) (.resultRes "stored")

/-- C2: `cache.set` is called exactly when the invocation reaches a
successful transform (success status with at least one route candidate
and a parsable duration), and then with the same namespace and the same
request payload that were passed to `cache.get` earlier in the same
invocation; on "no route found", on a non-success status, and on a
caught exception, `cache.set` is never called. -/
theorem c2_cache_write_scope (cfg : Config) (destination : String) (env : Env) :
    (∀ ns p r, (async_call cfg destination env).cacheSetArg = some (ns, p, r) →
      (async_call cfg destination env).cacheGetArg = some (ns, p)) ∧
    ((async_call cfg destination env).cacheSetArg.isSome = true ↔
      checks_pass cfg ∧ floats_ok cfg ∧ env.cacheGet = .missing ∧
        reaches_transform env) := by
  by_cases h1 : pyTruthyStr cfg.api_key = false
  · refine ⟨?_, ?_, ?_⟩
    · intro ns p r h
      simp [async_call, h1] at h
    · intro h
      simp [async_call, h1] at h
    · rintro ⟨⟨hc1, -, -⟩, -⟩
      rw [hc1] at h1
      simp at h1
  have h1' : pyTruthyStr cfg.api_key = true := by
    cases hx : pyTruthyStr cfg.api_key
    · exact absurd hx h1
    · rfl
  by_cases h2 : (pyTruthyCVal cfg.latitude = false ∨ pyTruthyCVal cfg.longitude = false)
  · refine ⟨?_, ?_, ?_⟩
    · intro ns p r h
      simp [async_call, h1', h2] at h
    · intro h
      simp [async_call, h1', h2] at h
    · rintro ⟨⟨-, hc2, hc3⟩, -⟩
      rcases h2 with h2 | h2
      · rw [hc2] at h2
        simp at h2
      · rw [hc3] at h2
        simp at h2
  rw [not_or] at h2
  obtain ⟨h2a, h2b⟩ := h2
  have h2' : pyTruthyCVal cfg.latitude = true := by
    cases hx : pyTruthyCVal cfg.latitude
    · exact absurd hx h2a
    · rfl
  have h3' : pyTruthyCVal cfg.longitude = true := by
    cases hx : pyTruthyCVal cfg.longitude
    · exact absurd hx h2b
    · rfl
  cases hlatO : pyFloat (cfg.latitude.getD (.cNum 0)) with
  | none =>
    refine ⟨?_, ?_, ?_⟩
    · intro ns p r h
      simp [async_call, h1', h2', h3', hlatO] at h
    · intro h
      simp [async_call, h1', h2', h3', hlatO] at h
    · rintro ⟨-, ⟨hf1, -⟩, -⟩
      rw [hlatO] at hf1
      simp at hf1
  | some lat =>
  cases hlngO : pyFloat (cfg.longitude.getD (.cNum 0)) with
  | none =>
    refine ⟨?_, ?_, ?_⟩
    · intro ns p r h
      simp [async_call, h1', h2', h3', hlatO, hlngO] at h
    · intro h
      simp [async_call, h1', h2', h3', hlatO, hlngO] at h
    · rintro ⟨-, ⟨-, hf2⟩, -⟩
      rw [hlngO] at hf2
      simp at hf2
  | some lng =>
  have hfok : floats_ok cfg := ⟨by rw [hlatO]; rfl, by rw [hlngO]; rfl⟩
  cases hg : env.cacheGet with
  | raises m =>
    refine ⟨?_, ?_, ?_⟩
    · intro ns p r h
      simp [async_call, h1', h2', h3', hlatO, hlngO, hg] at h
    · intro h
      simp [async_call, h1', h2', h3', hlatO, hlngO, hg] at h
    · rintro ⟨-, -, hm, -⟩
      simp at hm
  | found v =>
    refine ⟨?_, ?_, ?_⟩
    · intro ns p r h
      simp [async_call, h1', h2', h3', hlatO, hlngO, hg] at h
    · intro h
      simp [async_call, h1', h2', h3', hlatO, hlngO, hg] at h
    · rintro ⟨-, -, hm, -⟩
      simp at hm
  | missing =>
  cases hh : env.http with
  | raises m =>
    refine ⟨?_, ?_, ?_⟩
    · intro ns p r h
      simp [async_call, h1', h2', h3', hlatO, hlngO, hg, hh] at h
    · intro h
      simp [async_call, h1', h2', h3', hlatO, hlngO, hg, hh] at h
    · rintro ⟨-, -, -, route, rest, hrt, -⟩
      rw [hh] at hrt
      simp at hrt
  | response status routes =>
  by_cases hs : status = 200
  · subst hs
    cases routes with
    | nil =>
      refine ⟨?_, ?_, ?_⟩
      · intro ns p r h
        simp [async_call, h1', h2', h3', hlatO, hlngO, hg, hh] at h
      · intro h
        simp [async_call, h1', h2', h3', hlatO, hlngO, hg, hh] at h
      · rintro ⟨-, -, -, route, rest, hrt, -⟩
        rw [hh] at hrt
        simp at hrt
    | cons route rest =>
      cases hp : parse_duration (route.duration.getD "0s") with
      | none =>
        refine ⟨?_, ?_, ?_⟩
        · intro ns p r h
          simp [async_call, h1', h2', h3', hlatO, hlngO, hg, hh, hp] at h
        · intro h
          simp [async_call, h1', h2', h3', hlatO, hlngO, hg, hh, hp] at h
        · rintro ⟨-, -, -, route', rest', hrt, hps⟩
          rw [hh] at hrt
          injection hrt with hst hlist
          injection hlist with hroute hrest
          rw [← hroute, hp] at hps
          simp at hps
      | some secs =>
        have hpos :
            (async_call cfg destination env).cacheSetArg.isSome = true ∧
              (async_call cfg destination env).cacheGetArg =
                ((async_call cfg destination env).cacheSetArg.map
                  (fun q => (q.1, q.2.1))) := by
          cases hcs : env.cacheSet with
          | ok =>
            constructor <;>
              simp [async_call, h1', h2', h3', hlatO, hlngO, hg, hh, hp, hcs]
          | raises m =>
            constructor <;>
              simp [async_call, h1', h2', h3', hlatO, hlngO, hg, hh, hp, hcs]
        refine ⟨?_, ?_, ?_⟩
        · intro ns p r h
          rw [hpos.2, h]
          rfl
        · intro _
          exact ⟨⟨h1', h2', h3'⟩, hfok, rfl, route, rest, hh, by rw [hp]; rfl⟩
        · intro _
          exact hpos.1
  · refine ⟨?_, ?_, ?_⟩
    · intro ns p r h
      simp [async_call, h1', h2', h3', hlatO, hlngO, hg, hh, hs] at h
    · intro h
      simp [async_call, h1', h2', h3', hlatO, hlngO, hg, hh, hs] at h
    · rintro ⟨-, -, -, route, rest, hrt, -⟩
      rw [hh] at hrt
      injection hrt with hst hlist
      exact absurd hst hs

theorem c2_witness :
    (async_call cfgW "Times Square"
        { cacheGet := .missing, http := .response 200 [routeW],
          cacheSet := .ok }).cacheSetArg.isSome = true :=
  (c2_cache_write_scope cfgW "Times Square"
      { cacheGet := .missing, http := .response 200 [routeW], cacheSet := .ok }).2.mpr
    ⟨⟨rfl, rfl, rfl⟩, ⟨rfl, rfl⟩, rfl, routeW, [], rfl, rfl⟩
